import Mathlib

/-!
Shallow embedding of the computational core of the
Built-Personal-Expenses-Tracker (Cost of International Education) repository.

Sources embedded:
- src/feature/budget_planning.py : safe_float, find_university, compute_budget
- src/feature/policy_analysis.py : build_policy_frame, summarize_policy_insights,
  apply_policy_scenario

Python floats are modelled by the rationals; pandas cells that may be missing,
NaN or non-numeric are modelled by an explicit Cell type.  All definitions are
executable and follow the source line by line.
-/

namespace EduCosts

/-- A cell of the CSV-backed dataframe, as seen by feature code through
row.get(col, default) followed by safe_float: the column may be absent
(missing), the value may be NaN (na), a non-numeric string (invalid),
or a number. -/
inductive Cell where
  | missing
  | na
  | invalid
  | num (q : ℚ)
  deriving DecidableEq, Repr

/-- Embedding of safe_float(row.get(col, default)) from
src/feature/budget_planning.py lines 33-39: an absent column yields the
(numeric) default, NaN and non-numeric values yield 0.0, numbers pass
through. -/
def safeFloatGet (c : Cell) (dflt : ℚ) : ℚ :=
  match c with
  | .missing => dflt
  | .na => 0
  | .invalid => 0
  | .num q => q

/-- Python truthiness fallback x or d on a float: 0.0 is falsy. -/
def orDefault (q dflt : ℚ) : ℚ := if q = 0 then dflt else q

/-- Python int() on a float: truncation toward zero. -/
def truncInt (q : ℚ) : ℤ := if 0 ≤ q then ⌊q⌋ else ⌈q⌉

/-- One record of the dataset (one CSV row), with the fields the core
feature code reads.  String-valued identifying fields are Option
(none = missing/NaN). -/
structure Row where
  University : Option String := Option.none
  Country : Option String := Option.none
  City : Option String := Option.none
  Program : Option String := Option.none
  Level : Option String := Option.none
  Duration_Years : Cell := .missing
  Tuition_USD : Cell := .missing
  Rent_USD : Cell := .missing
  Insurance_USD : Cell := .missing
  Visa_Fee_USD : Cell := .missing
  Living_Cost_Index : Cell := .missing
  Exchange_Rate : Cell := .missing
  deriving DecidableEq, Repr

/-- The dataset; the University column may be absent from the frame as a
whole, which find_university checks first. -/
structure DataFrame where
  hasUniversityCol : Bool := true
  rows : List Row
  deriving DecidableEq, Repr

/-- duration = int(safe_float(row.get("Duration_Years", 1)) or 1)
(src/feature/budget_planning.py line 44 and
src/feature/policy_analysis.py line 37). -/
def parsedDuration (r : Row) : ℤ :=
  truncInt (orDefault (safeFloatGet r.Duration_Years 1) 1)

/-! ### find_university (src/feature/budget_planning.py lines 23-30) -/

/-- txt starts with pat (on character lists). -/
def leadsList : List Char → List Char → Bool
  | [], _ => true
  | _ :: _, [] => false
  | c :: cs, d :: ds => c = d && leadsList cs ds

/-- pat occurs as a contiguous sublist of txt. -/
def occursIn (pat : List Char) : List Char → Bool
  | [] => pat.isEmpty
  | t :: ts => leadsList pat (t :: ts) || occursIn pat ts

/-- Case-insensitive substring containment, the semantics of
Series.str.contains(query, case=False) for a query without regex
metacharacters (all queries named by the spec claims are plain words). -/
def containsCI (hay query : String) : Bool :=
  occursIn (query.data.map Char.toLower) (hay.data.map Char.toLower)

/-- astype(str) on the University cell: pandas renders a missing value
(NaN) as the literal string "nan". -/
def univAsStr (r : Row) : String :=
  match r.University with
  | Option.none => "nan"
  | Option.some s => s

/-- Embedding of find_university: None when the University column is
absent; otherwise the first row whose stringified University contains the
query case-insensitively (mask = astype(str).str.contains(query,
case=False, na=False); matches.iloc[0]). -/
def findUniversity (df : DataFrame) (query : String) : Option Row :=
  if df.hasUniversityCol then
    df.rows.find? (fun r => containsCI (univAsStr r) query)
  else
    Option.none

/-! ### compute_budget (src/feature/budget_planning.py lines 42-107) -/

/-- One entry of the per-year schedule built in the loop at lines 61-88. -/
structure YearLine where
  year : ℤ
  tuition_usd : ℚ
  rent_usd : ℚ
  insurance_usd : ℚ
  visa_usd : ℚ
  direct_usd : ℚ
  living_usd : ℚ
  total_usd : ℚ
  total_local : ℚ
  deriving DecidableEq, Repr

/-- The dict returned by compute_budget (lines 95-107). -/
structure BudgetResult where
  duration_years : ℤ
  living_multiplier : ℚ
  exchange_rate : ℚ
  ny_baseline : ℚ
  years : List YearLine
  program_total_usd : ℚ
  program_total_local : ℚ
  avg_year_usd : ℚ
  avg_month_usd : ℚ
  avg_year_local : ℚ
  avg_month_local : ℚ
  deriving DecidableEq, Repr

/-- The body of the loop for y in range(1, duration + 1) at lines 61-85,
building the yearly line for the zero-based loop index i (so year
y = i + 1).  The visa fee is charged when y == 1 and the living component
is ny_living * living_multiplier, identical in every iteration. -/
def yearLine (r : Row) (ny_living : ℚ) (i : ℕ) : YearLine :=
  let y : ℤ := (i : ℤ) + 1
  let tuition_per_year := safeFloatGet r.Tuition_USD 0
  let rent_annual := safeFloatGet r.Rent_USD 0 * 12
  let insurance_annual := safeFloatGet r.Insurance_USD 0
  let visa_fee := safeFloatGet r.Visa_Fee_USD 0
  let year_visa : ℚ := if y = 1 then visa_fee else 0
  let direct_costs := tuition_per_year + rent_annual + insurance_annual + year_visa
  let living := ny_living * (safeFloatGet r.Living_Cost_Index 100 / 100)
  let year_total_usd := direct_costs + living
  { year := y
    tuition_usd := tuition_per_year
    rent_usd := rent_annual
    insurance_usd := insurance_annual
    visa_usd := year_visa
    direct_usd := direct_costs
    living_usd := living
    total_usd := year_total_usd
    total_local := year_total_usd * safeFloatGet r.Exchange_Rate 1 }

/-- Embedding of compute_budget(row, ny_living).  The source function has
exactly these two parameters: it accepts no inflation rate, and the living
component ny_living * living_multiplier is the same in every year of the
loop (line 68). -/
def computeBudget (r : Row) (ny_living : ℚ) : BudgetResult :=
  let duration := parsedDuration r
  let living_multiplier := safeFloatGet r.Living_Cost_Index 100 / 100
  let exchange_rate := safeFloatGet r.Exchange_Rate 1
  let years := (List.range duration.toNat).map (yearLine r ny_living)
  let total_usd_program := (years.map (·.total_usd)).sum
  let total_local_program := (years.map (·.total_local)).sum
  { duration_years := duration
    living_multiplier := living_multiplier
    exchange_rate := exchange_rate
    ny_baseline := ny_living
    years := years
    program_total_usd := total_usd_program
    program_total_local := total_local_program
    avg_year_usd := if 0 < duration then total_usd_program / (duration : ℚ) else 0
    avg_month_usd := if 0 < duration then total_usd_program / ((duration : ℚ) * 12) else 0
    avg_year_local := if 0 < duration then total_local_program / (duration : ℚ) else 0
    avg_month_local := if 0 < duration then total_local_program / ((duration : ℚ) * 12) else 0 }

/-! ### build_policy_frame (src/feature/policy_analysis.py lines 23-83) -/

/-- One record of the policy frame before the affordability_index and
policy_gap_usd columns are appended (the dict built at lines 49-67). -/
structure PolicyRec where
  Country : Option String
  City : Option String
  University : Option String
  Program : Option String
  Level : Option String
  Duration_Years : ℤ
  Tuition_USD : ℚ
  Rent_USD : ℚ
  Insurance_USD : ℚ
  Visa_Fee_USD : ℚ
  Living_Cost_Index : ℚ
  Exchange_Rate : ℚ
  direct_annual_usd : ℚ
  indirect_annual_usd : ℚ
  total_annual_usd : ℚ
  deriving DecidableEq, Repr

/-- A finished row of the policy frame.  policy_gap_usd is Option because
pandas groupby drops NaN keys: a row with missing Level gets NaN for the
grouped median, hence a NaN gap, modelled as none. -/
structure PolicyRow where
  cols : PolicyRec
  affordability_index : ℚ
  policy_gap_usd : Option ℚ
  deriving DecidableEq, Repr

/-- The per-record computation in the loop of build_policy_frame
(lines 36-67): direct cost amortizes the visa fee over
max(duration, 1). -/
def policyRec (ny_living : ℚ) (row : Row) : PolicyRec :=
  let duration := parsedDuration row
  let tuition := safeFloatGet row.Tuition_USD 0
  let rent_month := safeFloatGet row.Rent_USD 0
  let insurance := safeFloatGet row.Insurance_USD 0
  let visa_fee := safeFloatGet row.Visa_Fee_USD 0
  let living_index := safeFloatGet row.Living_Cost_Index 100
  let exchange_rate := safeFloatGet row.Exchange_Rate 1
  let direct_annual := tuition + rent_month * 12 + insurance + visa_fee / ((max duration 1 : ℤ) : ℚ)
  let indirect_annual := ny_living * (living_index / 100)
  { Country := row.Country
    City := row.City
    University := row.University
    Program := row.Program
    Level := row.Level
    Duration_Years := duration
    Tuition_USD := tuition
    Rent_USD := rent_month
    Insurance_USD := insurance
    Visa_Fee_USD := visa_fee
    Living_Cost_Index := living_index
    Exchange_Rate := exchange_rate
    direct_annual_usd := direct_annual
    indirect_annual_usd := indirect_annual
    total_annual_usd := direct_annual + indirect_annual }

/-- Fold of min over a list with an explicit seed. -/
def minList (x : ℚ) (xs : List ℚ) : ℚ := xs.foldl min x

/-- Fold of max over a list with an explicit seed. -/
def maxList (x : ℚ) (xs : List ℚ) : ℚ := xs.foldl max x

/-- Minimum of a column, as Series.min on a nonempty column (0 on the
empty list, which the call sites never pass). -/
def listMin : List ℚ → ℚ
  | [] => 0
  | x :: xs => minList x xs

/-- Maximum of a column, as Series.max on a nonempty column. -/
def listMax : List ℚ → ℚ
  | [] => 0
  | x :: xs => maxList x xs

/-- The min-max normalization of lines 75-78 (and 421-424):
100 * (max - t) / (max - min) when max > min, else the constant 50. -/
def affordabilityIndex (mn mx t : ℚ) : ℚ :=
  if mn < mx then 100 * (mx - t) / (mx - mn) else 50

/-- Insertion into a sorted list of rationals. -/
def insertSorted (q : ℚ) : List ℚ → List ℚ
  | [] => [q]
  | x :: xs => if q ≤ x then q :: x :: xs else x :: insertSorted q xs

/-- Sort a list of rationals ascending. -/
def sortQ (l : List ℚ) : List ℚ := l.foldr insertSorted []

/-- Statistical median of a list of rationals, the semantics of
Series.median: middle element of the sorted list, or the average of the
two middle elements for even length (0 on the empty list, never hit by
group medians, whose groups are nonempty). -/
def medianQ (l : List ℚ) : ℚ :=
  let s := sortQ l
  let n := s.length
  if n = 0 then 0
  else if n % 2 = 1 then s.getD (n / 2) 0
  else (s.getD (n / 2 - 1) 0 + s.getD (n / 2) 0) / 2

/-- The two column assignments finishing build_policy_frame (lines 73-81):
attach the min-max affordability_index and the Level-grouped median gap
(groupby("Level").transform("median"); a missing Level falls outside
every group and its gap is NaN, modelled as none). -/
def policyRowMk (min_total max_total : ℚ) (allRecs : List PolicyRec) (r : PolicyRec) :
    PolicyRow :=
  { cols := r
    affordability_index := affordabilityIndex min_total max_total r.total_annual_usd
    policy_gap_usd :=
      match r.Level with
      | Option.none => Option.none
      | Option.some lvl =>
        Option.some (r.total_annual_usd -
          medianQ ((allRecs.filter (fun s => s.Level = Option.some lvl)).map
            (·.total_annual_usd))) }

/-- Embedding of build_policy_frame(df, ny_living): per-record cost rows,
then (for a nonempty frame) the global min-max affordability_index
(lines 73-78) and the Level-grouped median gap (lines 80-81). -/
def buildPolicyFrame (df : List Row) (ny_living : ℚ) : List PolicyRow :=
  let recs := df.map (policyRec ny_living)
  match recs with
  | [] => []
  | r0 :: rest =>
    let totals := (r0 :: rest).map (·.total_annual_usd)
    (r0 :: rest).map (policyRowMk (listMin totals) (listMax totals) (r0 :: rest))

/-! ### summarize_policy_insights (src/feature/policy_analysis.py lines 86-147) -/

/-- One row of the policy_gap table: groupby(Country, Level) aggregates. -/
structure PolicyGapRow where
  Country : String
  Level : String
  avg_total_annual_usd : ℚ
  avg_affordability_index : ℚ
  share_above_median : ℚ
  deriving DecidableEq, Repr

/-- One row of the comparative table: groupby(Country) statistics. -/
structure ComparativeRow where
  Country : String
  min_total_annual_usd : ℚ
  max_total_annual_usd : ℚ
  mean_total_annual_usd : ℚ
  deriving DecidableEq, Repr

/-- The four tables returned by summarize_policy_insights. -/
structure PolicySummary where
  total_annual : List PolicyRow
  affordability : List PolicyRow
  policy_gap : List PolicyGapRow
  comparative : List ComparativeRow
  deriving DecidableEq, Repr

/-- Mean of a list of rationals (Series.mean); 0 on the empty list. -/
def meanQ (l : List ℚ) : ℚ := if l.length = 0 then 0 else l.sum / (l.length : ℚ)

/-- above_median = policy_gap_usd > 0; a NaN gap (missing Level) compares
false. -/
def aboveMedian (r : PolicyRow) : Bool :=
  match r.policy_gap_usd with
  | Option.some g => decide (0 < g)
  | Option.none => false

/-- Insertion sort by a boolean comparison, the row reordering done by
sort_values. -/
def insertByB (le : α → α → Bool) (a : α) : List α → List α
  | [] => [a]
  | x :: xs => if le a x then a :: x :: xs else x :: insertByB le a xs

/-- Sort a list by a boolean comparison. -/
def sortByB (le : α → α → Bool) (l : List α) : List α := l.foldr (insertByB le) []

/-- Lexicographic comparison on strings via Ord, for groupby key order. -/
def strLe (a b : String) : Bool := compare a b ≠ Ordering.gt

/-- Lexicographic comparison on string pairs, for groupby([Country, Level])
key order. -/
def pairLe (a b : String × String) : Bool :=
  match compare a.1 b.1 with
  | Ordering.lt => true
  | Ordering.gt => false
  | Ordering.eq => compare a.2 b.2 ≠ Ordering.gt

/-- Embedding of summarize_policy_insights(frame): short-circuits to four
empty tables on an empty frame (lines 96-103); otherwise sorts the frame
by total cost ascending and by affordability descending, aggregates by
(Country, Level) and by Country.  groupby drops rows whose key is
missing and emits groups in sorted key order. -/
def summarizePolicyInsights (frame : List PolicyRow) : PolicySummary :=
  match frame with
  | [] => { total_annual := [], affordability := [], policy_gap := [], comparative := [] }
  | _ :: _ =>
    let total_annual :=
      sortByB (fun a b => decide (a.cols.total_annual_usd ≤ b.cols.total_annual_usd)) frame
    let affordability :=
      sortByB (fun a b => decide (b.affordability_index ≤ a.affordability_index)) frame
    let clKeys := sortByB pairLe ((frame.filterMap (fun r =>
      match r.cols.Country, r.cols.Level with
      | Option.some c, Option.some l => Option.some (c, l)
      | _, _ => Option.none)).dedup)
    let policy_gap := clKeys.map (fun k =>
      let members := frame.filter (fun r =>
        decide (r.cols.Country = Option.some k.1 ∧ r.cols.Level = Option.some k.2))
      { Country := k.1
        Level := k.2
        avg_total_annual_usd := meanQ (members.map (·.cols.total_annual_usd))
        avg_affordability_index := meanQ (members.map (·.affordability_index))
        share_above_median := meanQ (members.map (fun r => if aboveMedian r then 1 else 0)) })
    let countries := sortByB strLe ((frame.filterMap (·.cols.Country)).dedup)
    let comparative :=
      sortByB (fun a b => decide (a.mean_total_annual_usd ≤ b.mean_total_annual_usd))
        (countries.map (fun c =>
          let ts := (frame.filter (fun r => decide (r.cols.Country = Option.some c))).map
            (·.cols.total_annual_usd)
          { Country := c
            min_total_annual_usd := listMin ts
            max_total_annual_usd := listMax ts
            mean_total_annual_usd := meanQ ts }))
    { total_annual := total_annual
      affordability := affordability
      policy_gap := policy_gap
      comparative := comparative }

/-! ### apply_policy_scenario (src/feature/policy_analysis.py lines 375-426) -/

/-- A lever argument as the function may receive it from a user-facing
caller: falsy covers Python None, 0.0 and other falsy values (the
expression x or 0.0 turns them into 0.0); bad covers any value on which
float() raises; num is an ordinary number. -/
inductive Lever where
  | falsy
  | bad
  | num (q : ℚ)
  deriving DecidableEq, Repr

/-- The defensive parsing of lines 390-398:
max(0.0, min(1.0, float(x or 0.0))) with exceptions coerced to 0.0. -/
def leverClamp : Lever → ℚ
  | .falsy => 0
  | .bad => 0
  | .num q => max 0 (min 1 q)

/-- A row of the scenario frame: the copied input row plus the appended
scenario_* columns (lines 400-424). -/
structure ScenarioRow where
  base : PolicyRow
  scenario_tuition_annual_usd : ℚ
  scenario_direct_annual_usd : ℚ
  scenario_indirect_annual_usd : ℚ
  scenario_total_annual_usd : ℚ
  scenario_affordability_index : ℚ
  deriving DecidableEq, Repr

/-- duration = scen["Duration_Years"].replace(0, 1) (line 402): only an
exact 0 is replaced; negative durations pass through. -/
def scenDuration (d : ℤ) : ℚ := ((if d = 0 then 1 else d : ℤ) : ℚ)

/-- tuition_after = tuition * (1.0 - tuition_cut) (line 409). -/
def scenTuitionAfter (t : ℚ) (r : PolicyRow) : ℚ :=
  r.cols.Tuition_USD * (1 - t)

/-- direct_after = tuition_after + rent * 12 + insurance + visa / duration
(line 410). -/
def scenDirectAfter (t : ℚ) (r : PolicyRow) : ℚ :=
  scenTuitionAfter t r + r.cols.Rent_USD * 12 + r.cols.Insurance_USD +
    r.cols.Visa_Fee_USD / scenDuration r.cols.Duration_Years

/-- indirect_after = indirect * (1.0 - living_subsidy) (line 411). -/
def scenIndirectAfter (s : ℚ) (r : PolicyRow) : ℚ :=
  r.cols.indirect_annual_usd * (1 - s)

/-- total_after = direct_after + indirect_after (line 412). -/
def scenTotalAfter (t s : ℚ) (r : PolicyRow) : ℚ :=
  scenDirectAfter t r + scenIndirectAfter s r

/-- The column assignments of lines 414-424: the copied row plus the five
scenario_* columns, with the affordability normalization bounds passed
in. -/
def scenarioRowMk (t s min_total max_total : ℚ) (r : PolicyRow) : ScenarioRow :=
  { base := r
    scenario_tuition_annual_usd := scenTuitionAfter t r
    scenario_direct_annual_usd := scenDirectAfter t r
    scenario_indirect_annual_usd := scenIndirectAfter s r
    scenario_total_annual_usd := scenTotalAfter t s r
    scenario_affordability_index :=
      affordabilityIndex min_total max_total (scenTotalAfter t s r) }

/-- Embedding of apply_policy_scenario(frame, tuition_cut, living_subsidy):
returns a copy of the (empty) frame at once when it is empty, otherwise
clamps the levers, recomputes the scenario columns per row and normalizes
scenario_affordability_index over the scenario totals of this frame. -/
def applyPolicyScenario (frame : List PolicyRow) (tuition_cut living_subsidy : Lever) :
    List ScenarioRow :=
  match frame with
  | [] => []
  | f0 :: rest =>
    let t := leverClamp tuition_cut
    let s := leverClamp living_subsidy
    let totals := (f0 :: rest).map (scenTotalAfter t s)
    (f0 :: rest).map (scenarioRowMk t s (listMin totals) (listMax totals))

/-- Modelled from the spec: the scenario recomputation at given lever
fractions already inside [0, 1], used to state that apply_policy_scenario
behaves as if each lever were clamped into [0, 1] before the same
computation. -/
def applyPolicyScenarioSpec (frame : List PolicyRow) (t s : ℚ) : List ScenarioRow :=
  match frame with
  | [] => []
  | f0 :: rest =>
    let totals := (f0 :: rest).map (scenTotalAfter t s)
    (f0 :: rest).map (scenarioRowMk t s (listMin totals) (listMax totals))

/-- The columns of a policy row that the scenario recomputation reads
(everything except the baseline total_annual_usd, affordability_index and
policy_gap_usd, which it never consults). -/
def scenInput (r : PolicyRow) : ℤ × ℚ × ℚ × ℚ × ℚ × ℚ :=
  (r.cols.Duration_Years, r.cols.Tuition_USD, r.cols.Rent_USD, r.cols.Insurance_USD,
    r.cols.Visa_Fee_USD, r.cols.indirect_annual_usd)

/-! ### Concrete fixtures used by witnesses and counterexamples -/

/-- Default yearly line, used only as the fallback argument of getD. -/
def dummyLine : YearLine :=
  { year := 0, tuition_usd := 0, rent_usd := 0, insurance_usd := 0, visa_usd := 0,
    direct_usd := 0, living_usd := 0, total_usd := 0, total_local := 0 }

/-- The end-to-end record of spec section 8, property 12. -/
def rowTestU : Row :=
  { University := Option.some "Test U", Duration_Years := .num 2, Tuition_USD := .num 10000,
    Rent_USD := .num 500, Insurance_USD := .num 1000, Visa_Fee_USD := .num 200,
    Living_Cost_Index := .num 120, Exchange_Rate := .num (11 / 10) }

/-- A record whose Duration_Years cell holds the number 0. -/
def rowZeroDur : Row := { Duration_Years := .num 0 }

/-- A record with a negative Duration_Years and a visa fee. -/
def rowNegDur : Row := { Duration_Years := .num (-2), Visa_Fee_USD := .num 200 }

/-- A record with a missing University value. -/
def rowNoUniv : Row := {}

/-- A cheap record (annual total 1000 at a zero baseline). -/
def rowCheap : Row := { Tuition_USD := .num 1000 }

/-- An expensive record (annual total 5000 at a zero baseline). -/
def rowDear : Row := { Tuition_USD := .num 5000 }

/-- Default policy row, used only as the fallback argument of getD. -/
def dummyPolicyRow : PolicyRow :=
  { cols := policyRec 0 {}, affordability_index := 0, policy_gap_usd := Option.none }

/-- Default scenario row, used only as the fallback argument of getD. -/
def dummyScenarioRow : ScenarioRow :=
  { base := dummyPolicyRow, scenario_tuition_annual_usd := 0, scenario_direct_annual_usd := 0,
    scenario_indirect_annual_usd := 0, scenario_total_annual_usd := 0,
    scenario_affordability_index := 0 }

/-- A hand-built policy row with tuition 1000 and no other costs. -/
def prowCheap : PolicyRow :=
  { cols := policyRec 0 rowCheap, affordability_index := 100, policy_gap_usd := Option.none }

/-- A hand-built policy row with tuition 5000 and no other costs. -/
def prowDear : PolicyRow :=
  { cols := policyRec 0 rowDear, affordability_index := 0, policy_gap_usd := Option.none }

/-- prowCheap with its baseline total and affordability columns overwritten
by unrelated values (the scenario inputs are untouched). -/
def prowCheapAlt : PolicyRow :=
  { cols := { policyRec 0 rowCheap with total_annual_usd := 77 },
    affordability_index := 3, policy_gap_usd := Option.some 9 }

/-- prowDear with its baseline total and affordability columns overwritten
by unrelated values (the scenario inputs are untouched). -/
def prowDearAlt : PolicyRow :=
  { cols := { policyRec 0 rowDear with total_annual_usd := 5 },
    affordability_index := 99, policy_gap_usd := Option.none }

/-! ### Helper lemmas on the fold-based column minima and maxima -/

theorem minList_cons (x y : ℚ) (ys : List ℚ) : minList x (y :: ys) = minList (min x y) ys := rfl

theorem maxList_cons (x y : ℚ) (ys : List ℚ) : maxList x (y :: ys) = maxList (max x y) ys := rfl

theorem minList_le_seed (x : ℚ) (xs : List ℚ) : minList x xs ≤ x := by
  induction xs generalizing x with
  | nil => simp [minList]
  | cons y ys ih =>
    calc minList x (y :: ys) = minList (min x y) ys := rfl
    _ ≤ min x y := ih (min x y)
    _ ≤ x := min_le_left x y

theorem minList_le_mem (x t : ℚ) (xs : List ℚ) (ht : t ∈ xs) : minList x xs ≤ t := by
  induction xs generalizing x with
  | nil => cases ht
  | cons y ys ih =>
    rcases List.mem_cons.mp ht with rfl | h
    · calc minList x (t :: ys) = minList (min x t) ys := rfl
      _ ≤ min x t := minList_le_seed (min x t) ys
      _ ≤ t := min_le_right x t
    · exact ih (min x y) h

theorem seed_le_maxList (x : ℚ) (xs : List ℚ) : x ≤ maxList x xs := by
  induction xs generalizing x with
  | nil => simp [maxList]
  | cons y ys ih =>
    calc x ≤ max x y := le_max_left x y
    _ ≤ maxList (max x y) ys := ih (max x y)
    _ = maxList x (y :: ys) := rfl

theorem mem_le_maxList (x t : ℚ) (xs : List ℚ) (ht : t ∈ xs) : t ≤ maxList x xs := by
  induction xs generalizing x with
  | nil => cases ht
  | cons y ys ih =>
    rcases List.mem_cons.mp ht with rfl | h
    · calc t ≤ max x t := le_max_right x t
      _ ≤ maxList (max x t) ys := seed_le_maxList (max x t) ys
      _ = maxList x (t :: ys) := rfl
    · exact ih (max x y) h

theorem listMin_le (l : List ℚ) (t : ℚ) (ht : t ∈ l) : listMin l ≤ t := by
  cases l with
  | nil => cases ht
  | cons x xs =>
    rcases List.mem_cons.mp ht with rfl | h
    · exact minList_le_seed t xs
    · exact minList_le_mem x t xs h

theorem le_listMax (l : List ℚ) (t : ℚ) (ht : t ∈ l) : t ≤ listMax l := by
  cases l with
  | nil => cases ht
  | cons x xs =>
    rcases List.mem_cons.mp ht with rfl | h
    · exact seed_le_maxList t xs
    · exact mem_le_maxList x t xs h

theorem minList_mem (x : ℚ) (xs : List ℚ) : minList x xs ∈ x :: xs := by
  induction xs generalizing x with
  | nil => simp [minList]
  | cons y ys ih =>
    rw [minList_cons]
    rcases List.mem_cons.mp (ih (min x y)) with hm | hm
    · rw [hm]
      rcases min_choice x y with hc | hc <;> rw [hc]
      · exact List.mem_cons_self _ _
      · exact List.mem_cons_of_mem _ (List.mem_cons_self _ _)
    · exact List.mem_cons_of_mem _ (List.mem_cons_of_mem _ hm)

theorem maxList_mem (x : ℚ) (xs : List ℚ) : maxList x xs ∈ x :: xs := by
  induction xs generalizing x with
  | nil => simp [maxList]
  | cons y ys ih =>
    rw [maxList_cons]
    rcases List.mem_cons.mp (ih (max x y)) with hm | hm
    · rw [hm]
      rcases max_choice x y with hc | hc <;> rw [hc]
      · exact List.mem_cons_self _ _
      · exact List.mem_cons_of_mem _ (List.mem_cons_self _ _)
    · exact List.mem_cons_of_mem _ (List.mem_cons_of_mem _ hm)

theorem listMin_mem (l : List ℚ) (h : l ≠ []) : listMin l ∈ l := by
  cases l with
  | nil => exact absurd rfl h
  | cons x xs => exact minList_mem x xs

theorem listMax_mem (l : List ℚ) (h : l ≠ []) : listMax l ∈ l := by
  cases l with
  | nil => exact absurd rfl h
  | cons x xs => exact maxList_mem x xs

theorem truncInt_intCast (n : ℤ) : truncInt ((n : ℚ)) = n := by
  unfold truncInt
  split <;> simp

/-! ### Helper lemmas on the min-max affordability normalization -/

theorem affordabilityIndex_nonneg (mn mx t : ℚ) (h2 : t ≤ mx) :
    0 ≤ affordabilityIndex mn mx t := by
  unfold affordabilityIndex
  split
  · rename_i h
    apply div_nonneg
    · have : (0 : ℚ) ≤ mx - t := by linarith
      linarith
    · linarith
  · norm_num

theorem affordabilityIndex_le_100 (mn mx t : ℚ) (h1 : mn ≤ t) :
    affordabilityIndex mn mx t ≤ 100 := by
  unfold affordabilityIndex
  split
  · rename_i h
    rw [div_le_iff₀ (by linarith : (0 : ℚ) < mx - mn)]
    linarith
  · norm_num

theorem affordabilityIndex_at_max (mn mx : ℚ) (h : mn < mx) :
    affordabilityIndex mn mx mx = 0 := by
  unfold affordabilityIndex
  rw [if_pos h]
  simp

theorem affordabilityIndex_at_min (mn mx : ℚ) (h : mn < mx) :
    affordabilityIndex mn mx mn = 100 := by
  unfold affordabilityIndex
  rw [if_pos h, mul_div_assoc, div_self (by linarith : mx - mn ≠ 0), mul_one]

theorem affordabilityIndex_const (mn t : ℚ) : affordabilityIndex mn mn t = 50 := by
  unfold affordabilityIndex
  rw [if_neg (lt_irrefl mn)]

/-! ### Shape lemmas for the frame builders -/

theorem policyRowMk_cols_map (mn mx : ℚ) (allRecs l : List PolicyRec) :
    (l.map (policyRowMk mn mx allRecs)).map (·.cols) = l := by
  induction l with
  | nil => rfl
  | cons x xs ih =>
    simp only [List.map_cons]
    rw [ih]
    rfl

theorem buildPolicyFrame_cols (df : List Row) (ny : ℚ) :
    (buildPolicyFrame df ny).map (·.cols) = df.map (policyRec ny) := by
  simp only [buildPolicyFrame]
  cases h : df.map (policyRec ny) with
  | nil => simp
  | cons r0 rest => exact policyRowMk_cols_map _ _ _ _

theorem buildPolicyFrame_totals (df : List Row) (ny : ℚ) :
    (buildPolicyFrame df ny).map (·.cols.total_annual_usd)
      = (df.map (policyRec ny)).map (·.total_annual_usd) := by
  have h := congrArg (List.map (·.total_annual_usd)) (buildPolicyFrame_cols df ny)
  simpa [List.map_map, Function.comp] using h

theorem buildPolicyFrame_afford (df : List Row) (ny : ℚ) (prow : PolicyRow)
    (h : prow ∈ buildPolicyFrame df ny) :
    prow.affordability_index =
      affordabilityIndex
        (listMin ((df.map (policyRec ny)).map (·.total_annual_usd)))
        (listMax ((df.map (policyRec ny)).map (·.total_annual_usd)))
        prow.cols.total_annual_usd
    ∧ prow.cols.total_annual_usd ∈ (df.map (policyRec ny)).map (·.total_annual_usd) := by
  simp only [buildPolicyFrame] at h
  cases hd : df.map (policyRec ny) with
  | nil => rw [hd] at h; cases h
  | cons r0 rest =>
    rw [hd] at h
    obtain ⟨r, hr, rfl⟩ := List.mem_map.mp h
    refine ⟨rfl, ?_⟩
    exact List.mem_map_of_mem _ hr

theorem applyPolicyScenario_eq_spec (f : List PolicyRow) (tc ls : Lever) :
    applyPolicyScenario f tc ls = applyPolicyScenarioSpec f (leverClamp tc) (leverClamp ls) := by
  cases f <;> rfl

theorem applyPolicyScenario_length (f : List PolicyRow) (tc ls : Lever) :
    (applyPolicyScenario f tc ls).length = f.length := by
  cases f with
  | nil => rfl
  | cons f0 rest => simp [applyPolicyScenario]

theorem applyPolicyScenario_totals (f : List PolicyRow) (tc ls : Lever) :
    (applyPolicyScenario f tc ls).map (·.scenario_total_annual_usd)
      = f.map (scenTotalAfter (leverClamp tc) (leverClamp ls)) := by
  cases f with
  | nil => rfl
  | cons f0 rest =>
    simp only [applyPolicyScenario, List.map_map]
    rfl

theorem applyPolicyScenario_idx (f : List PolicyRow) (tc ls : Lever) :
    (applyPolicyScenario f tc ls).map (·.scenario_affordability_index)
      = f.map (fun r =>
          affordabilityIndex
            (listMin (f.map (scenTotalAfter (leverClamp tc) (leverClamp ls))))
            (listMax (f.map (scenTotalAfter (leverClamp tc) (leverClamp ls))))
            (scenTotalAfter (leverClamp tc) (leverClamp ls) r)) := by
  cases f with
  | nil => rfl
  | cons f0 rest =>
    simp only [applyPolicyScenario, List.map_map]
    rfl

theorem applyPolicyScenario_mem (f : List PolicyRow) (tc ls : Lever) (srow : ScenarioRow)
    (hs : srow ∈ applyPolicyScenario f tc ls) :
    srow.scenario_affordability_index
      = affordabilityIndex
          (listMin (f.map (scenTotalAfter (leverClamp tc) (leverClamp ls))))
          (listMax (f.map (scenTotalAfter (leverClamp tc) (leverClamp ls))))
          srow.scenario_total_annual_usd
    ∧ srow.scenario_total_annual_usd
        ∈ f.map (scenTotalAfter (leverClamp tc) (leverClamp ls)) := by
  cases f with
  | nil => cases hs
  | cons f0 rest =>
    simp only [applyPolicyScenario] at hs
    obtain ⟨r, hr, rfl⟩ := List.mem_map.mp hs
    exact ⟨rfl, List.mem_map_of_mem _ hr⟩

theorem applyPolicyScenario_idx_totals (f : List PolicyRow) (tc ls : Lever) :
    (applyPolicyScenario f tc ls).map (·.scenario_affordability_index)
      = (f.map (scenTotalAfter (leverClamp tc) (leverClamp ls))).map
          (affordabilityIndex
            (listMin (f.map (scenTotalAfter (leverClamp tc) (leverClamp ls))))
            (listMax (f.map (scenTotalAfter (leverClamp tc) (leverClamp ls))))) := by
  rw [applyPolicyScenario_idx, List.map_map]
  rfl

theorem scenTotalAfter_congr (t s : ℚ) (r r' : PolicyRow) (h : scenInput r = scenInput r') :
    scenTotalAfter t s r = scenTotalAfter t s r' := by
  simp only [scenInput, Prod.mk.injEq] at h
  obtain ⟨h1, h2, h3, h4, h5, h6⟩ := h
  simp only [scenTotalAfter, scenDirectAfter, scenTuitionAfter, scenIndirectAfter, scenDuration]
  rw [h1, h2, h3, h4, h5, h6]

theorem map_scenTotalAfter_congr (t s : ℚ) :
    ∀ (f g : List PolicyRow), f.map scenInput = g.map scenInput →
      f.map (scenTotalAfter t s) = g.map (scenTotalAfter t s) := by
  intro f
  induction f with
  | nil =>
    intro g h
    cases g with
    | nil => rfl
    | cons g0 gs => simp at h
  | cons f0 fs ih =>
    intro g h
    cases g with
    | nil => simp at h
    | cons g0 gs =>
      simp only [List.map_cons, List.cons.injEq] at h ⊢
      exact ⟨scenTotalAfter_congr t s f0 g0 h.1, ih gs h.2⟩

/-! ### Assorted evaluation helpers -/

theorem scenarioRowMk_base_map (t s mn mx : ℚ) (l : List PolicyRow) :
    (l.map (scenarioRowMk t s mn mx)).map (·.base) = l := by
  induction l with
  | nil => rfl
  | cons x xs ih =>
    simp only [List.map_cons]
    rw [ih]
    rfl

theorem getD_mem_of_lt {α : Type} :
    ∀ (l : List α) (i : ℕ) (d : α), i < l.length → l.getD i d ∈ l
  | [], i, _, h => absurd h (by simp)
  | x :: xs, 0, _, _ => List.mem_cons_self x xs
  | x :: xs, i + 1, d, h =>
    List.mem_cons_of_mem x (getD_mem_of_lt xs i d (by simpa using h))

theorem parsedDuration_missing (r : Row) (h : r.Duration_Years = Cell.missing) :
    parsedDuration r = 1 := by
  unfold parsedDuration
  rw [h]
  norm_num [safeFloatGet, orDefault, truncInt]

theorem parsedDuration_rowTestU : parsedDuration rowTestU = 2 := by
  norm_num [parsedDuration, orDefault, safeFloatGet, truncInt, rowTestU]

theorem parsedDuration_rowNegDur : parsedDuration rowNegDur = -2 := by
  have h1 : parsedDuration rowNegDur = truncInt (-2) := by
    norm_num [parsedDuration, orDefault, safeFloatGet, rowNegDur]
  rw [h1, show ((-2 : ℚ)) = ((-2 : ℤ) : ℚ) by norm_num, truncInt_intCast]

/-! ### The claims -/

/-- C7: apply_policy_scenario never raises on malformed lever input: for
every frame and every lever argument (Python None or other falsy values,
values on which float() raises, numbers inside or outside [0, 1]) it
returns the well-formed scenario frame obtained by clamping each lever
into [0, 1], with non-numeric and falsy levers coerced to 0. -/
theorem C7_lever_clamping (f : List PolicyRow) (tc ls : Lever) :
    applyPolicyScenario f tc ls = applyPolicyScenarioSpec f (leverClamp tc) (leverClamp ls)
    ∧ (applyPolicyScenario f tc ls).length = f.length
    ∧ 0 ≤ leverClamp tc ∧ leverClamp tc ≤ 1
    ∧ 0 ≤ leverClamp ls ∧ leverClamp ls ≤ 1
    ∧ leverClamp Lever.falsy = 0 ∧ leverClamp Lever.bad = 0 := by
  refine ⟨applyPolicyScenario_eq_spec f tc ls, applyPolicyScenario_length f tc ls,
    ?_, ?_, ?_, ?_, rfl, rfl⟩
  · cases tc with
    | falsy => norm_num [leverClamp]
    | bad => norm_num [leverClamp]
    | num q => exact le_max_left 0 _
  · cases tc with
    | falsy => norm_num [leverClamp]
    | bad => norm_num [leverClamp]
    | num q => exact max_le (by norm_num) (min_le_left 1 q)
  · cases ls with
    | falsy => norm_num [leverClamp]
    | bad => norm_num [leverClamp]
    | num q => exact le_max_left 0 _
  · cases ls with
    | falsy => norm_num [leverClamp]
    | bad => norm_num [leverClamp]
    | num q => exact max_le (by norm_num) (min_le_left 1 q)

/-- C8: on empty input none of the core frame functions raises:
build_policy_frame of an empty dataset is the empty frame, and
summarize_policy_insights of an empty frame short-circuits to four
structurally-consistent empty tables. -/
theorem C8_empty_inputs (ny_living : ℚ) :
    buildPolicyFrame [] ny_living = []
    ∧ summarizePolicyInsights [] =
        { total_annual := [], affordability := [], policy_gap := [], comparative := [] } :=
  ⟨rfl, rfl⟩

/-- C10: apply_policy_scenario does not modify its input: the returned
scenario frame is a fresh copy whose original rows and columns project
back to exactly the input frame, the scenario_* fields existing only on
the copy. -/
theorem C10_no_mutation (f : List PolicyRow) (tc ls : Lever) :
    (applyPolicyScenario f tc ls).map (·.base) = f := by
  cases f with
  | nil => rfl
  | cons f0 rest =>
    simp only [applyPolicyScenario]
    exact scenarioRowMk_base_map _ _ _ _ _

/-- C1 (code bug): the claim asserts that compute_budget escalates
living_usd geometrically by an inflation rate.  The source compute_budget
(src/feature/budget_planning.py lines 42-107) accepts no inflation
parameter at all — even though its caller (the budget-planning web route,
src/views/ package, line 94) passes inflation_rate=..., which makes that
call raise TypeError — and the living component of every yearly line is the same
constant ny_baseline * (Living_Cost_Index / 100), so for r > 0 no
geometric escalation ever happens. -/
theorem C1_living_constant (r : Row) (b : ℚ) :
    ∀ line ∈ (computeBudget r b).years,
      line.living_usd = b * (safeFloatGet r.Living_Cost_Index 100 / 100) := by
  intro line hline
  have hy : (computeBudget r b).years
      = (List.range (parsedDuration r).toNat).map (yearLine r b) := rfl
  rw [hy] at hline
  obtain ⟨i, _, rfl⟩ := List.mem_map.mp hline
  rfl

/-- Witness for C1_living_constant: on the two-year record rowTestU the
second-year line exists and its living_usd is the same baseline-indexed
constant as in year one (no escalation). -/
theorem C1_living_constant_witness :
    ((computeBudget rowTestU 24000).years.getD 1 dummyLine) ∈ (computeBudget rowTestU 24000).years
    ∧ ((computeBudget rowTestU 24000).years.getD 1 dummyLine).living_usd
        = 24000 * (safeFloatGet rowTestU.Living_Cost_Index 100 / 100) := by
  have hyears : (computeBudget rowTestU 24000).years
      = [yearLine rowTestU 24000 0, yearLine rowTestU 24000 1] := by
    show (List.range (parsedDuration rowTestU).toNat).map (yearLine rowTestU 24000) = _
    rw [parsedDuration_rowTestU]
    rfl
  have hmem : ((computeBudget rowTestU 24000).years.getD 1 dummyLine)
      ∈ (computeBudget rowTestU 24000).years := by
    rw [hyears]
    simp
  exact ⟨hmem, C1_living_constant rowTestU 24000 _ hmem⟩

/-- C2 (amended): compute_budget emits the contiguous ascending years
1..d where d is the parsed duration int(safe_float(Duration_Years) or 1);
a missing, NaN, non-numeric or exactly-zero Duration_Years is coerced to
1, and for d ≥ 1 exactly d lines are returned — but a Duration_Years
whose truncation is negative or zero without being falsy (e.g. -2, or 0.5)
is NOT coerced to 1 and yields an empty schedule. -/
theorem C2_schedule (r : Row) (b : ℚ) :
    (computeBudget r b).years.map (·.year)
        = (List.range (parsedDuration r).toNat).map (fun (i : ℕ) => (i : ℤ) + 1)
    ∧ ((r.Duration_Years = Cell.missing ∨ r.Duration_Years = Cell.na ∨
        r.Duration_Years = Cell.invalid ∨ r.Duration_Years = Cell.num 0) →
        parsedDuration r = 1)
    ∧ (1 ≤ parsedDuration r → ((computeBudget r b).years.length : ℤ) = parsedDuration r) := by
  refine ⟨?_, ?_, ?_⟩
  · show ((List.range (parsedDuration r).toNat).map (yearLine r b)).map (·.year) = _
    rw [List.map_map]
    rfl
  · intro h
    have hone : safeFloatGet r.Duration_Years 1 = 1 ∨ safeFloatGet r.Duration_Years 1 = 0 := by
      rcases h with h | h | h | h <;> rw [h] <;> simp [safeFloatGet]
    have hor : orDefault (safeFloatGet r.Duration_Years 1) 1 = 1 := by
      rcases hone with h1 | h1 <;> rw [h1] <;> norm_num [orDefault]
    unfold parsedDuration
    rw [hor, show ((1 : ℚ)) = ((1 : ℤ) : ℚ) by norm_num, truncInt_intCast]
  · intro h
    have hlen : (computeBudget r b).years.length = (parsedDuration r).toNat := by
      show ((List.range (parsedDuration r).toNat).map (yearLine r b)).length = _
      simp
    rw [hlen, Int.toNat_of_nonneg (by linarith)]

/-- Witness for C2_schedule: the zero-duration record is coerced to one
year and its schedule has exactly one line. -/
theorem C2_schedule_witness :
    parsedDuration rowZeroDur = 1
    ∧ ((computeBudget rowZeroDur 5).years.length : ℤ) = parsedDuration rowZeroDur := by
  have h := C2_schedule rowZeroDur 5
  have h1 : parsedDuration rowZeroDur = 1 := h.2.1 (Or.inr (Or.inr (Or.inr rfl)))
  exact ⟨h1, h.2.2 (by simp [h1])⟩

/-- Counterexample to C2 as stated: on a record with Duration_Years = -2,
compute_budget does not coerce the duration to 1 — it reports
duration_years = -2 and returns an empty schedule, contradicting "the
returned schedule is never empty". -/
theorem C2_counterexample :
    (computeBudget rowNegDur 0).years = []
    ∧ (computeBudget rowNegDur 0).duration_years = -2 := by
  constructor
  · show (List.range (parsedDuration rowNegDur).toNat).map (yearLine rowNegDur 0) = []
    rw [parsedDuration_rowNegDur]
    rfl
  · show parsedDuration rowNegDur = -2
    exact parsedDuration_rowNegDur

/-- C9 (code bug): find_university is case-insensitive, returns the first
match in order and None when the column is absent — but a missing
University value is stringified by astype(str) to the literal "nan"
before matching, so it DOES match any query contained in "nan"
(defeating the na=False argument meant to exclude it): a one-row dataset
whose University is missing is returned for the queries "nan" and "AN",
while with the column absent the result is None as specified. -/
theorem C9_missing_univ_matches :
    findUniversity { rows := [rowNoUniv] } "nan" = Option.some rowNoUniv
    ∧ findUniversity { rows := [rowNoUniv] } "AN" = Option.some rowNoUniv
    ∧ findUniversity { hasUniversityCol := false, rows := [rowNoUniv] } "nan" = Option.none := by
  refine ⟨?_, ?_, rfl⟩ <;> decide

/-- C3: the visa fee is charged differently in the two views: in every
compute_budget schedule visa_usd equals Visa_Fee_USD exactly in year 1
and 0 in every later year (one-time), while the build_policy_frame row
derived from the same dataset record carries a direct_annual_usd that
amortizes Visa_Fee_USD by dividing it by the program duration. -/
theorem C3_visa_policies (r : Row) (b ny : ℚ) (df : List Row) (prow : PolicyRow) (i : ℕ)
    (hdur : 1 ≤ parsedDuration r) (hdf : df[i]? = Option.some r)
    (hfr : (buildPolicyFrame df ny)[i]? = Option.some prow) :
    (∀ line ∈ (computeBudget r b).years,
        line.visa_usd = if line.year = 1 then safeFloatGet r.Visa_Fee_USD 0 else 0)
    ∧ prow.cols.direct_annual_usd
        = safeFloatGet r.Tuition_USD 0 + safeFloatGet r.Rent_USD 0 * 12
          + safeFloatGet r.Insurance_USD 0
          + safeFloatGet r.Visa_Fee_USD 0 / ((parsedDuration r : ℤ) : ℚ) := by
  constructor
  · intro line hline
    have hy : (computeBudget r b).years
        = (List.range (parsedDuration r).toNat).map (yearLine r b) := rfl
    rw [hy] at hline
    obtain ⟨j, _, rfl⟩ := List.mem_map.mp hline
    rfl
  · have h1 : ((buildPolicyFrame df ny).map (·.cols))[i]? = Option.some prow.cols := by
      rw [List.getElem?_map, hfr]
      rfl
    have h2 : (df.map (policyRec ny))[i]? = Option.some (policyRec ny r) := by
      rw [List.getElem?_map, hdf]
      rfl
    rw [buildPolicyFrame_cols, h2] at h1
    have hc : prow.cols = policyRec ny r := ((Option.some.injEq _ _).mp h1).symm
    rw [hc]
    have hD : (policyRec ny r).direct_annual_usd
        = safeFloatGet r.Tuition_USD 0 + safeFloatGet r.Rent_USD 0 * 12
          + safeFloatGet r.Insurance_USD 0
          + safeFloatGet r.Visa_Fee_USD 0 / ((max (parsedDuration r) 1 : ℤ) : ℚ) := rfl
    rw [hD, max_eq_left hdur]

/-- Witness for C3_visa_policies: on the two-year record rowTestU the
year-1 visa charge is the full 200, the year-2 charge is 0, and the
policy-frame direct cost amortizes the same 200 over the 2 years. -/
theorem C3_visa_policies_witness :
    ((computeBudget rowTestU 24000).years.getD 0 dummyLine).visa_usd = 200
    ∧ ((computeBudget rowTestU 24000).years.getD 1 dummyLine).visa_usd = 0
    ∧ ((buildPolicyFrame [rowTestU] 26000).getD 0 dummyPolicyRow).cols.direct_annual_usd
        = 17100 := by
  have h := C3_visa_policies rowTestU 24000 26000 [rowTestU]
    ((buildPolicyFrame [rowTestU] 26000).getD 0 dummyPolicyRow) 0
    (by rw [parsedDuration_rowTestU]; norm_num) rfl rfl
  have hyears : (computeBudget rowTestU 24000).years
      = [yearLine rowTestU 24000 0, yearLine rowTestU 24000 1] := by
    show (List.range (parsedDuration rowTestU).toNat).map (yearLine rowTestU 24000) = _
    rw [parsedDuration_rowTestU]
    rfl
  have hmem0 : ((computeBudget rowTestU 24000).years.getD 0 dummyLine)
      ∈ (computeBudget rowTestU 24000).years := by
    rw [hyears]; simp
  have hmem1 : ((computeBudget rowTestU 24000).years.getD 1 dummyLine)
      ∈ (computeBudget rowTestU 24000).years := by
    rw [hyears]; simp
  refine ⟨?_, ?_, ?_⟩
  · have hv := h.1 _ hmem0
    rw [hyears] at hv
    rw [hyears]
    simp only [List.getD] at hv ⊢
    rw [hv]
    simp [yearLine, safeFloatGet, rowTestU]
  · have hv := h.1 _ hmem1
    rw [hyears] at hv
    rw [hyears]
    simp only [List.getD] at hv ⊢
    rw [hv]
    simp [yearLine, safeFloatGet, rowTestU]
  · rw [h.2, parsedDuration_rowTestU]
    norm_num [safeFloatGet, rowTestU]

/-- C4: for every dataset whose policy frame it belongs to, a
build_policy_frame row has an affordability_index that is a min-max
normalization over the whole returned frame: it lies in [0, 100]; when the frame
totals are not all equal, a row at the frame maximum total gets 0 and a
row at the frame minimum gets 100; and when all totals are equal every
row gets exactly 50. -/
theorem C4_affordability (df : List Row) (ny : ℚ) (prow : PolicyRow)
    (hmem : prow ∈ buildPolicyFrame df ny) :
    (0 ≤ prow.affordability_index ∧ prow.affordability_index ≤ 100)
    ∧ (listMin ((buildPolicyFrame df ny).map (·.cols.total_annual_usd)) <
         listMax ((buildPolicyFrame df ny).map (·.cols.total_annual_usd)) →
        (prow.cols.total_annual_usd
            = listMax ((buildPolicyFrame df ny).map (·.cols.total_annual_usd)) →
          prow.affordability_index = 0)
        ∧ (prow.cols.total_annual_usd
            = listMin ((buildPolicyFrame df ny).map (·.cols.total_annual_usd)) →
          prow.affordability_index = 100))
    ∧ ((∀ a ∈ (buildPolicyFrame df ny).map (·.cols.total_annual_usd),
         ∀ c ∈ (buildPolicyFrame df ny).map (·.cols.total_annual_usd), a = c) →
        prow.affordability_index = 50) := by
  rw [buildPolicyFrame_totals df ny]
  obtain ⟨hidx, hmemT⟩ := buildPolicyFrame_afford df ny prow hmem
  have hmn : listMin ((df.map (policyRec ny)).map (·.total_annual_usd))
      ≤ prow.cols.total_annual_usd := listMin_le _ _ hmemT
  have hmx : prow.cols.total_annual_usd
      ≤ listMax ((df.map (policyRec ny)).map (·.total_annual_usd)) := le_listMax _ _ hmemT
  refine ⟨⟨?_, ?_⟩, fun hlt => ⟨?_, ?_⟩, ?_⟩
  · rw [hidx]
    exact affordabilityIndex_nonneg _ _ _ hmx
  · rw [hidx]
    exact affordabilityIndex_le_100 _ _ _ hmn
  · intro heq
    rw [hidx, heq]
    exact affordabilityIndex_at_max _ _ hlt
  · intro heq
    rw [hidx, heq]
    exact affordabilityIndex_at_min _ _ hlt
  · intro hall
    have hne : (df.map (policyRec ny)).map (·.total_annual_usd) ≠ [] := by
      intro h0
      rw [h0] at hmemT
      cases hmemT
    have hmm : listMin ((df.map (policyRec ny)).map (·.total_annual_usd))
        = listMax ((df.map (policyRec ny)).map (·.total_annual_usd)) :=
      hall _ (listMin_mem _ hne) _ (listMax_mem _ hne)
    rw [hidx, hmm]
    exact affordabilityIndex_const _ _

/-- Witness for C4_affordability: in the two-record frame built from
rowCheap and rowDear, the cheap row gets index 100 and the dear row gets
0, and both lie inside [0, 100]. -/
theorem C4_affordability_witness :
    ((buildPolicyFrame [rowCheap, rowDear] 0).getD 0 dummyPolicyRow).affordability_index = 100
    ∧ ((buildPolicyFrame [rowCheap, rowDear] 0).getD 1 dummyPolicyRow).affordability_index = 0
    ∧ 0 ≤ ((buildPolicyFrame [rowCheap, rowDear] 0).getD 0 dummyPolicyRow).affordability_index := by
  have hlen : (buildPolicyFrame [rowCheap, rowDear] 0).length = 2 := rfl
  have hm0 := getD_mem_of_lt (buildPolicyFrame [rowCheap, rowDear] 0) 0 dummyPolicyRow
    (by rw [hlen]; norm_num)
  have hm1 := getD_mem_of_lt (buildPolicyFrame [rowCheap, rowDear] 0) 1 dummyPolicyRow
    (by rw [hlen]; norm_num)
  have h0 := C4_affordability [rowCheap, rowDear] 0 _ hm0
  have h1 := C4_affordability [rowCheap, rowDear] 0 _ hm1
  have htot : (buildPolicyFrame [rowCheap, rowDear] 0).map (·.cols.total_annual_usd)
      = [1000, 5000] := by
    rw [buildPolicyFrame_totals]
    have hc : parsedDuration rowCheap = 1 := parsedDuration_missing rowCheap rfl
    have hd : parsedDuration rowDear = 1 := parsedDuration_missing rowDear rfl
    simp only [List.map_cons, List.map_nil, policyRec, hc, hd]
    norm_num [safeFloatGet, rowCheap, rowDear]
  have hminmax : listMin ((buildPolicyFrame [rowCheap, rowDear] 0).map
        (·.cols.total_annual_usd)) = 1000
      ∧ listMax ((buildPolicyFrame [rowCheap, rowDear] 0).map
        (·.cols.total_annual_usd)) = 5000 := by
    rw [htot]
    constructor
    · show minList 1000 [5000] = 1000
      norm_num [minList, min_def]
    · show maxList 1000 [5000] = 5000
      norm_num [maxList, max_def]
  have hv0 : ((buildPolicyFrame [rowCheap, rowDear] 0).getD 0
      dummyPolicyRow).cols.total_annual_usd = 1000 := by
    have := congrArg (fun l => l.getD 0 (0 : ℚ)) htot
    simpa [List.getD_map] using this
  have hv1 : ((buildPolicyFrame [rowCheap, rowDear] 0).getD 1
      dummyPolicyRow).cols.total_annual_usd = 5000 := by
    have := congrArg (fun l => l.getD 1 (0 : ℚ)) htot
    simpa [List.getD_map] using this
  have hlt : listMin ((buildPolicyFrame [rowCheap, rowDear] 0).map (·.cols.total_annual_usd))
      < listMax ((buildPolicyFrame [rowCheap, rowDear] 0).map (·.cols.total_annual_usd)) := by
    rw [hminmax.1, hminmax.2]
    norm_num
  refine ⟨?_, ?_, (h0.1).1⟩
  · exact (h0.2.1 hlt).2 (by rw [hv0, hminmax.1])
  · exact (h1.2.1 hlt).1 (by rw [hv1, hminmax.2])

/-- C5 (amended): apply_policy_scenario at zero levers reproduces the
baseline totals row by row on every frame built from records whose
parsed duration is not negative; a record with a negative parsed
Duration_Years breaks the identity because build_policy_frame divides
the visa fee by max(duration, 1) = 1 while the scenario recomputation
divides it by duration.replace(0, 1) = the negative duration itself. -/
theorem C5_zero_levers (df : List Row) (ny : ℚ)
    (h : ∀ r ∈ df, 0 ≤ parsedDuration r) :
    (applyPolicyScenario (buildPolicyFrame df ny) (Lever.num 0) (Lever.num 0)).map
        (·.scenario_total_annual_usd)
      = (buildPolicyFrame df ny).map (·.cols.total_annual_usd) := by
  rw [applyPolicyScenario_totals]
  have hc : leverClamp (Lever.num 0) = 0 := by norm_num [leverClamp]
  rw [hc]
  apply List.map_congr_left
  intro prow hmem
  have hcols : prow.cols ∈ df.map (policyRec ny) := by
    rw [← buildPolicyFrame_cols df ny]
    exact List.mem_map_of_mem _ hmem
  obtain ⟨r, hr, hcr⟩ := List.mem_map.mp hcols
  have hd := h r hr
  show scenTotalAfter 0 0 prow = prow.cols.total_annual_usd
  have hsd : scenDuration (parsedDuration r) = ((max (parsedDuration r) 1 : ℤ) : ℚ) := by
    unfold scenDuration
    rcases eq_or_lt_of_le hd with h0 | hpos
    · rw [← h0]
      norm_num
    · rw [if_neg (by omega : parsedDuration r ≠ 0),
        max_eq_left (by omega : 1 ≤ parsedDuration r)]
  simp only [scenTotalAfter, scenDirectAfter, scenTuitionAfter, scenIndirectAfter]
  rw [← hcr]
  simp only [policyRec]
  rw [hsd]
  ring

/-- Witness for C5_zero_levers: the identity at zero levers holds on the
frame built from the one-year record rowCheap. -/
theorem C5_zero_levers_witness :
    (applyPolicyScenario (buildPolicyFrame [rowCheap] 26000) (Lever.num 0) (Lever.num 0)).map
        (·.scenario_total_annual_usd)
      = (buildPolicyFrame [rowCheap] 26000).map (·.cols.total_annual_usd) :=
  C5_zero_levers [rowCheap] 26000 (by
    intro r hr
    rw [List.mem_singleton] at hr
    subst hr
    rw [parsedDuration_missing rowCheap rfl]
    norm_num)

/-- Counterexample to C5 as stated: on the frame built from the single
record rowNegDur (Duration_Years = -2, Visa_Fee_USD = 200) the baseline
total is 200 but the zero-lever scenario total is -100, so
apply_policy_scenario(frame, 0, 0) is not the identity on totals. -/
theorem C5_counterexample :
    ((applyPolicyScenario (buildPolicyFrame [rowNegDur] 0) (Lever.num 0) (Lever.num 0)).getD 0
        dummyScenarioRow).scenario_total_annual_usd
      ≠ ((buildPolicyFrame [rowNegDur] 0).getD 0 dummyPolicyRow).cols.total_annual_usd := by
  have hrec : (policyRec 0 rowNegDur).total_annual_usd = 200 := by
    simp only [policyRec, parsedDuration_rowNegDur]
    norm_num [safeFloatGet, rowNegDur]
  have hfr : buildPolicyFrame [rowNegDur] 0
      = [policyRowMk (listMin [(policyRec 0 rowNegDur).total_annual_usd])
          (listMax [(policyRec 0 rowNegDur).total_annual_usd])
          [policyRec 0 rowNegDur] (policyRec 0 rowNegDur)] := rfl
  have hscen : ((applyPolicyScenario (buildPolicyFrame [rowNegDur] 0) (Lever.num 0)
      (Lever.num 0)).getD 0 dummyScenarioRow).scenario_total_annual_usd = -100 := by
    rw [hfr]
    show scenTotalAfter (leverClamp (Lever.num 0)) (leverClamp (Lever.num 0)) _ = -100
    have hc : leverClamp (Lever.num 0) = 0 := by norm_num [leverClamp]
    rw [hc]
    simp only [scenTotalAfter, scenDirectAfter, scenTuitionAfter, scenIndirectAfter,
      policyRowMk, scenDuration, policyRec, parsedDuration_rowNegDur]
    norm_num [safeFloatGet, rowNegDur]
  have hbase : ((buildPolicyFrame [rowNegDur] 0).getD 0
      dummyPolicyRow).cols.total_annual_usd = 200 := by
    rw [hfr]
    show (policyRec 0 rowNegDur).total_annual_usd = 200
    exact hrec
  rw [hscen, hbase]
  norm_num

/-- C6: apply_policy_scenario normalizes scenario_affordability_index by
an independent min-max over the scenario totals of the frame it is given:
the indices depend only on the scenario-input columns (never on the
baseline columns total_annual_usd / affordability_index, hence never on
the baseline min/max), they lie in [0, 100], and when all scenario totals
are equal every row gets 50. -/
theorem C6_scenario_normalization (f g : List PolicyRow) (tc ls : Lever)
    (hsame : f.map scenInput = g.map scenInput) :
    (applyPolicyScenario f tc ls).map (·.scenario_affordability_index)
        = (applyPolicyScenario g tc ls).map (·.scenario_affordability_index)
    ∧ (∀ srow ∈ applyPolicyScenario f tc ls,
        0 ≤ srow.scenario_affordability_index ∧ srow.scenario_affordability_index ≤ 100)
    ∧ ((∀ a ∈ (applyPolicyScenario f tc ls).map (·.scenario_total_annual_usd),
          ∀ c ∈ (applyPolicyScenario f tc ls).map (·.scenario_total_annual_usd), a = c) →
        ∀ srow ∈ applyPolicyScenario f tc ls, srow.scenario_affordability_index = 50) := by
  refine ⟨?_, ?_, ?_⟩
  · rw [applyPolicyScenario_idx_totals f tc ls, applyPolicyScenario_idx_totals g tc ls,
      map_scenTotalAfter_congr (leverClamp tc) (leverClamp ls) f g hsame]
  · intro srow hs
    obtain ⟨hidx, hmemT⟩ := applyPolicyScenario_mem f tc ls srow hs
    constructor
    · rw [hidx]
      exact affordabilityIndex_nonneg _ _ _ (le_listMax _ _ hmemT)
    · rw [hidx]
      exact affordabilityIndex_le_100 _ _ _ (listMin_le _ _ hmemT)
  · intro hall srow hs
    rw [applyPolicyScenario_totals] at hall
    obtain ⟨hidx, hmemT⟩ := applyPolicyScenario_mem f tc ls srow hs
    have hne : f.map (scenTotalAfter (leverClamp tc) (leverClamp ls)) ≠ [] := by
      intro h0
      rw [h0] at hmemT
      cases hmemT
    have hmm : listMin (f.map (scenTotalAfter (leverClamp tc) (leverClamp ls)))
        = listMax (f.map (scenTotalAfter (leverClamp tc) (leverClamp ls))) :=
      hall _ (listMin_mem _ hne) _ (listMax_mem _ hne)
    rw [hidx, hmm]
    exact affordabilityIndex_const _ _

/-- Witness for C6_scenario_normalization: two frames sharing the
scenario-input columns but carrying completely different baseline totals
and affordability indices produce identical scenario affordability
columns under a 50% tuition cut. -/
theorem C6_scenario_normalization_witness :
    (applyPolicyScenario [prowCheap, prowDear] (Lever.num (1 / 2)) (Lever.num 0)).map
        (·.scenario_affordability_index)
      = (applyPolicyScenario [prowCheapAlt, prowDearAlt] (Lever.num (1 / 2)) (Lever.num 0)).map
          (·.scenario_affordability_index) :=
  (C6_scenario_normalization [prowCheap, prowDear] [prowCheapAlt, prowDearAlt]
    (Lever.num (1 / 2)) (Lever.num 0) rfl).1

end EduCosts
